import Mathlib

/-!
Verification of the uFBT SDK bootstrap engine (`src/ufbt/bootstrap.py`).

This file shallowly embeds the SDK source-resolution and deployment
reconciliation engine: the four SDK loaders (branch / channel / url / local),
the HTML link extractor used by the branch loader, the task-merging logic
(`SdkDeployTask.update_from`), the loader factory
(`SdkLoaderFactory.create_for_task`) and the deployment decision procedure
(`UfbtSdkDeployer.deploy`).

Modelling conventions:
* Python dicts with string keys and string-or-None values become association
  lists `PyDict := List (String × Option String)` in insertion order; an
  absent key and a key stored with value `None` are distinguished by
  `dlookup` (raw item lookup, `d[k]`) versus `pyGet` (`d.get(k)`, which
  returns `None` in both cases).
* Python truthiness of optional strings (`None` and `""` are falsy) is
  `pyTruthy`; `x or default` is `pyOr`.
* Network and filesystem effects outside the deployed directory are
  abstracted into a `World` record (fetching the branch index page, the
  channel directory JSON, downloading a file, probing/unzipping an archive).
  `_fetch_file` is modelled as one world step that writes only into the
  download directory and returns the local path of the downloaded file.
* The state `deploy` manipulates — the deployed directory, the
  `ufbt_state.json` file inside it, and the download cache — is the record
  `FS`.  Every mutating filesystem operation performed by `deploy` is also
  recorded in an event trace so that "no filesystem mutation" is the
  statement "the trace is empty".
* Exceptions become `Except PyErr`; the distinct Python exception types that
  matter to the claims are distinguished by `PyErr` constructors.
-/

set_option maxHeartbeats 1000000

/-- Association-list lookup of the raw dict item: `none` = key absent,
`some v` = key present with value `v` (where `v = none` models Python
`None`).  Models `d[k]` / `k in d`. -/
def dlookup (d : List (String × Option String)) (k : String) : Option (Option String) :=
  (d.find? (fun kv => kv.1 == k)).map (fun kv => kv.2)

/-- A Python dict with string keys and string-or-None values, in insertion
order. -/
abbrev PyDict := List (String × Option String)

/-- Models Python `d.get(k, None)`: returns `none` both when the key is
absent and when it is stored as `None`. -/
def pyGet (d : PyDict) (k : String) : Option String :=
  (dlookup d k).join

/-- Generic insertion-order-preserving association update, modelling
`d[k] = v` on a Python dict: an existing key keeps its position, a new key
is appended. -/
def aset {κ : Type} [DecidableEq κ] {ν : Type} : List (κ × ν) → κ → ν → List (κ × ν)
  | [], k, v => [(k, v)]
  | (k', v') :: rest, k, v =>
    if k' = k then (k, v) :: rest else (k', v') :: aset rest k v

/-- Generic association lookup (`d.get(k, None)` on a dict with non-string
values, e.g. the branch loader's `(FileType, target) → filename` dict). -/
def aget {κ : Type} [DecidableEq κ] {ν : Type} (d : List (κ × ν)) (k : κ) : Option ν :=
  (d.find? (fun kv => decide (kv.1 = k))).map (fun kv => kv.2)

/-- Python truthiness of an optional string: `None` and `""` are falsy. -/
def pyTruthy : Option String → Bool
  | none => false
  | some s => !(s == "")

/-- Models Python `x or default` for an optional string `x`. -/
def pyOr (x : Option String) (d : String) : String :=
  match x with
  | none => d
  | some s => if s == "" then d else s

/-- Models Python `f"{x}"` on an optional string (None renders as "None"). -/
def pyStrOpt : Option String → String
  | none => "None"
  | some s => s

/-- Models Python `pat in s` (substring containment). -/
def containsSub (s pat : String) : Bool :=
  s.data.tails.any (fun t => pat.data.isPrefixOf t)

/-- Models Python `s.startswith(pre)`. -/
def pyStartsWith (s pre : String) : Bool :=
  pre.data.isPrefixOf s.data

/-- Models Python `x in l` for an optional string against a list of strings
(`None in l` is `False` when `l` contains only strings). -/
def optMem (x : Option String) (l : List String) : Bool :=
  match x with
  | none => false
  | some s => l.contains s

/-- Characters after the last `/`. -/
def lastSegmentAux (cur : List Char) : List Char → List Char
  | [] => cur
  | c :: cs => if c = '/' then lastSegmentAux [] cs else lastSegmentAux (cur ++ [c]) cs

/-- Last path segment of a URL; abstracts
`PurePosixPath(unquote(urlparse(url).path)).parts[-1]` in `_fetch_file`. -/
def urlFileName (url : String) : String :=
  ⟨lastSegmentAux [] url.data⟩

/-- `str.upper()` on the ASCII strings used here. -/
def strUpper (s : String) : String := ⟨s.data.map Char.toUpper⟩

/-- `str.lower()` on the ASCII strings used here. -/
def strLower (s : String) : String := ⟨s.data.map Char.toLower⟩

-- decidable equality of `Except` results, for concrete evaluation
deriving instance DecidableEq for Except

/-- The Python exception kinds that the embedded code can raise. -/
inductive PyErr : Type
  /-- `ValueError(msg)` -/
  | valueError (msg : String)
  /-- `KeyError(key)` -/
  | keyError (key : String)
  /-- `RuntimeError(msg)` — raised by the branch link extractor -/
  | runtimeError (msg : String)
  /-- a `urllib` network error raised by `urlopen` -/
  | urlError
  /-- `FileNotFoundError` — `open` / `ZipFile` on a missing file -/
  | fileNotFoundError
  /-- `zipfile.BadZipFile` — `ZipFile` on a corrupt archive -/
  | badZipFile
  /-- `TypeError` — e.g. an operation applied to `None` -/
  | typeError
  /-- `AttributeError` — e.g. `None.upper()` -/
  | attributeError
deriving DecidableEq, Repr

/-- `FileType` enumeration (`bootstrap.py` lines 31-45). -/
inductive FileType : Type
  | SDK_ZIP | LIB_ZIP | CORE2_FIRMWARE_TGZ | RESOURCES_TGZ | SCRIPTS_TGZ
  | UPDATE_TGZ | FIRMWARE_ELF | FULL_BIN | FULL_DFU | FULL_JSON
  | UPDATER_BIN | UPDATER_DFU | UPDATER_ELF | UPDATER_JSON
deriving DecidableEq, Repr

/-- The `.value` of each `FileType` member. -/
def ftValue : FileType → String
  | .SDK_ZIP => "sdk_zip"
  | .LIB_ZIP => "lib_zip"
  | .CORE2_FIRMWARE_TGZ => "core2_firmware_tgz"
  | .RESOURCES_TGZ => "resources_tgz"
  | .SCRIPTS_TGZ => "scripts_tgz"
  | .UPDATE_TGZ => "update_tgz"
  | .FIRMWARE_ELF => "firmware_elf"
  | .FULL_BIN => "full_bin"
  | .FULL_DFU => "full_dfu"
  | .FULL_JSON => "full_json"
  | .UPDATER_BIN => "updater_bin"
  | .UPDATER_DFU => "updater_dfu"
  | .UPDATER_ELF => "updater_elf"
  | .UPDATER_JSON => "updater_json"

/-- `FileType._member_map_.get(name)`: lookup of a member by its NAME. -/
def fileTypeOfName (s : String) : Option FileType :=
  if s = "SDK_ZIP" then some .SDK_ZIP
  else if s = "LIB_ZIP" then some .LIB_ZIP
  else if s = "CORE2_FIRMWARE_TGZ" then some .CORE2_FIRMWARE_TGZ
  else if s = "RESOURCES_TGZ" then some .RESOURCES_TGZ
  else if s = "SCRIPTS_TGZ" then some .SCRIPTS_TGZ
  else if s = "UPDATE_TGZ" then some .UPDATE_TGZ
  else if s = "FIRMWARE_ELF" then some .FIRMWARE_ELF
  else if s = "FULL_BIN" then some .FULL_BIN
  else if s = "FULL_DFU" then some .FULL_DFU
  else if s = "FULL_JSON" then some .FULL_JSON
  else if s = "UPDATER_BIN" then some .UPDATER_BIN
  else if s = "UPDATER_DFU" then some .UPDATER_DFU
  else if s = "UPDATER_ELF" then some .UPDATER_ELF
  else if s = "UPDATER_JSON" then some .UPDATER_JSON
  else none

/-- `BaseSdkLoader.VERSION_UNKNOWN`. -/
def VERSION_UNKNOWN : String := "unknown"

/-- `BaseSdkLoader.ALWAYS_UPDATE_VERSIONS` (lines 53-54). -/
def ALWAYS_UPDATE_VERSIONS : List String := [VERSION_UNKNOWN, "local"]

/-- `UpdateChannelSdkLoader.UpdateChannel` enumeration. -/
inductive UpdateChannel : Type
  | DEV | RC | RELEASE
deriving DecidableEq, Repr

/-- The `.name` of an `UpdateChannel` member. -/
def channelMemberName : UpdateChannel → String
  | .DEV => "DEV"
  | .RC => "RC"
  | .RELEASE => "RELEASE"

/-- The `.value` of an `UpdateChannel` member. -/
def channelValue : UpdateChannel → String
  | .DEV => "development"
  | .RC => "release-candidate"
  | .RELEASE => "release"

/-- `UpdateChannel[name]`: member lookup by NAME (KeyError = `none`). -/
def channelOfName (s : String) : Option UpdateChannel :=
  if s = "DEV" then some .DEV
  else if s = "RC" then some .RC
  else if s = "RELEASE" then some .RELEASE
  else none

/-! ### The branch link extractor (`BranchSdkLoader.LinkExtractor`, lines 112-135)

`FILE_NAME_RE = re.compile(r"flipper-z-(\w+)-(\w+)-(.+)\.(\w+)")`, used with
`re.match` (prefix match anchored at the start).  The regex is modelled
directly: after the literal `flipper-z-`, the two `(\w+)` groups are maximal
word-character runs each followed by a literal `-` (a shorter run cannot
succeed under backtracking because the following character would again be a
word character), and greedy `(.+)\.(\w+)` selects the rightmost `.` that is
preceded by at least one character, is followed by a word character, and has
no newline before it (`.` does not match a newline); the final `(\w+)` is the
maximal word run after that dot, with trailing characters permitted since
`re.match` does not anchor the end. -/

/-- `\w` on the ASCII inputs used here: letters, digits and underscore. -/
def isWordChar (c : Char) : Bool := c.isAlphanum || c == '_'

/-- Strip an exact literal from the front of a character list. -/
def chopLit : List Char → List Char → Option (List Char)
  | [], cs => some cs
  | _ :: _, [] => none
  | p :: ps, c :: cs => if c = p then chopLit ps cs else none

/-- All splits `(take i, drop i)` of a character list, leftmost first. -/
def splitsCh (r : List Char) : List (List Char × List Char) :=
  (List.range (r.length + 1)).map (fun i => (r.take i, r.drop i))

/-- Whether a character list starts with a word character. -/
def headWordChar : List Char → Bool
  | [] => false
  | c :: _ => isWordChar c

/-- A split is a candidate match for `(.+)\.(\w+)` when the suffix starts
with `.` followed by a word character, the prefix is nonempty, and no
newline occurs in the prefix.  Returns `(group3, rest-after-the-dot)`. -/
def dotCandidate (pr : List Char × List Char) : Option (List Char × List Char) :=
  match pr.2 with
  | [] => none
  | c :: rest =>
    if c = '.' ∧ pr.1 ≠ [] ∧ pr.1.all (fun x => x ≠ '\n') ∧ headWordChar rest then
      some (pr.1, rest)
    else none

/-- The greedy `(.+)\.(\w+)` tail: the rightmost candidate split. -/
def lastDotSplit (r : List Char) : Option (List Char × List Char) :=
  ((splitsCh r).filterMap dotCandidate).getLast?

/-- One `(\w+)-` step of the pattern: the maximal word run (nonempty, and
under backtracking a shorter run cannot succeed since the next character
would again be a word character) followed by a literal `-`. -/
def matchWordDash (r : List Char) : Option (List Char × List Char) :=
  match r.span isWordChar with
  | (w, rest) =>
    if w = [] then none
    else
      match rest with
      | '-' :: r' => some (w, r')
      | _ => none

/-- The `(.+)\.(\w+)` tail of the pattern: group 3 and the maximal word
run after the selected dot (trailing characters are allowed, as `re.match`
does not anchor the end). -/
def matchTail (r5 : List Char) : Option (String × String) :=
  match lastDotSplit r5 with
  | none => none
  | some (g3, rest) => some (⟨g3⟩, ⟨(rest.span isWordChar).1⟩)

/-- `FILE_NAME_RE.match(href)`: on success returns the four groups
`(target, file_type, version, ext)`. -/
def matchFileName (href : String) : Option (String × String × String × String) :=
  match chopLit "flipper-z-".data href.data with
  | none => none
  | some r1 =>
    match matchWordDash r1 with
    | none => none
    | some (w1, r3) =>
      match matchWordDash r3 with
      | none => none
      | some (w2, r5) =>
        match matchTail r5 with
        | none => none
        | some (g3, g4) => some (⟨w1⟩, ⟨w2⟩, g3, g4)

/-- State of the `LinkExtractor` after `reset()`: the discovered
`(file type, target) → filename` dict and the discovered version. -/
structure ExtState : Type where
  files : List ((FileType × String) × String)
  version : Option String
deriving DecidableEq, Repr

/-- A start tag fed to the extractor: tag name and attribute list
(attribute values may be `None`). -/
abbrev Anchor := String × List (String × Option String)

/-- `dict(attrs)` in `handle_starttag` (later duplicates win). -/
def attrsDict (attrs : List (String × Option String)) : PyDict :=
  attrs.foldl (fun d kv => aset d kv.1 kv.2) []

/-- The guard chain of `handle_starttag` (lines 120-126): an `<a>` tag with
a truthy `href` that does not contain `.map` and matches `FILE_NAME_RE`.
Returns the href and the four regex groups. -/
def anchorMatch (tag : String) (attrs : List (String × Option String)) :
    Option (String × String × String × String × String) :=
  if tag = "a" then
    match pyGet (attrsDict attrs) "href" with
    | none => none
    | some h =>
      if h = "" then none
      else if containsSub h ".map" then none
      else
        match matchFileName h with
        | none => none
        | some (target, ftype, ver, ext) => some (h, target, ftype, ver, ext)
  else none

/-- `LinkExtractor.handle_starttag` (lines 120-135).  On a matching anchor
the `(file type, target) → href` dict is updated when the
`{file_type}_{ext}` name is a `FileType` member; then the version is
recorded if none is set yet, kept if the new version extends it, and a
`RuntimeError("Found multiple versions: ...")` is raised otherwise.  (In the
source the raise happens after the files-dict update; the partially updated
extractor is discarded by the propagating exception, so the error branch
carries no state.) -/
def handle_starttag (st : ExtState) (tag : String)
    (attrs : List (String × Option String)) : Except PyErr ExtState :=
  match anchorMatch tag attrs with
  | none => .ok st
  | some (h, target, ftype, ver, ext) =>
    let files' :=
      match fileTypeOfName (strUpper (ftype ++ "_" ++ ext)) with
      | some ft => aset st.files (ft, target) h
      | none => st.files
    if pyTruthy st.version = false then .ok ⟨files', some ver⟩
    else if pyStartsWith ver (st.version.getD "") then .ok ⟨files', st.version⟩
    else .error (.runtimeError "Found multiple versions")

/-- `HTMLParser.feed`: fold `handle_starttag` over the start tags of the
page from a given state. -/
def runFrom (st : ExtState) : List Anchor → Except PyErr ExtState
  | [] => .ok st
  | a :: as =>
    match handle_starttag st a.1 a.2 with
    | .error e => .error e
    | .ok st' => runFrom st' as

/-- Extractor state after `reset()`. -/
def extractorInit : ExtState := ⟨[], none⟩

/-- Feeding a whole branch index page to a freshly reset extractor
(`_fetch_branch`). -/
def runExtractor (as : List Anchor) : Except PyErr ExtState :=
  runFrom extractorInit as

/-- The version string a single start tag contributes (the regex group the
extractor's version logic sees), if any. -/
def anchorVersion (a : Anchor) : Option String :=
  (anchorMatch a.1 a.2).map (fun x => x.2.2.2.1)

/-- All version strings discovered while parsing an index page, in order. -/
def discoveredVersions (as : List Anchor) : List String :=
  as.filterMap anchorVersion

/-! ### The channel directory JSON (`update.flipperzero.one/firmware/directory.json`)

The shape assumed by `UpdateChannelSdkLoader` (spec section 6); `url` is kept
optional because the code reads it with `file_info.get("url", None)`. -/

/-- One entry of a version's `files` list. -/
structure FileInfo : Type where
  /-- the `type` field -/
  ftype : String
  /-- the `target` field -/
  target : String
  /-- the `url` field, possibly absent -/
  url : Option String
deriving DecidableEq, Repr

/-- One entry of a channel's `versions` list. -/
structure VersionData : Type where
  version : String
  files : List FileInfo
deriving DecidableEq, Repr

/-- One entry of the `channels` list. -/
structure ChannelData : Type where
  id : String
  versions : List VersionData
deriving DecidableEq, Repr

/-- The whole directory index document. -/
structure DirectoryIndex : Type where
  channels : List ChannelData
deriving DecidableEq, Repr

/-- Filesystem mutations performed by `deploy`, in order.  Only the
deployed directory, the state file and the download cache are mutated by
the engine. -/
inductive Event : Type
  /-- a completed download written into the download directory
  (`_fetch_file`) -/
  | downloadWrite (path : String)
  /-- `shutil.rmtree(sdk_target_dir, ignore_errors=True)` -/
  | rmtree
  /-- `zip_file.extractall(sdk_target_dir)` -/
  | extractall (archive : String)
  /-- `json.dump(ufbt_state, f)` into the state file -/
  | writeState
deriving DecidableEq, Repr

/-- The paths written into the download directory by a list of events. -/
def eventDownloads (ev : List Event) : List String :=
  ev.filterMap (fun e =>
    match e with
    | .downloadWrite p => some p
    | _ => none)

/-- The filesystem state owned by one `UfbtSdkDeployer`: whether the
deployed (`current`) directory exists, the parsed contents of the
`ufbt_state.json` file inside it (`none` = file absent), and the list of
completed downloads in the download directory. -/
structure FS : Type where
  dirExists : Bool
  stateFile : Option PyDict
  downloads : List String
deriving DecidableEq, Repr

/-- The external world: remote indexes, the network, and archive probing.
`branchPage` returns the start tags of the branch index page (`none` =
network failure); `directoryJson` returns the parsed channel index
(`some none` = response that is not valid JSON, outer `none` = network
failure); `fetchUrl` succeeds or fails a download; `fileExists` / `zipValid`
describe what `ZipFile(path)` finds. -/
structure World : Type where
  branchPage : String → Option (List Anchor)
  directoryJson : String → Option (Option DirectoryIndex)
  fetchUrl : String → Option Unit
  fileExists : String → Bool
  zipValid : String → Bool

/-- `BaseSdkLoader._fetch_file` (lines 65-76): downloads `url` into the
download directory and returns the local file path.  A failed download
raises; it can touch only the download directory. -/
def fetch_file (w : World) (downloadDir url : String) :
    Except PyErr (String × List Event) :=
  let filePath := downloadDir ++ "/" ++ urlFileName url
  match w.fetchUrl url with
  | none => .error .urlError
  | some _ => .ok (filePath, [.downloadWrite filePath])

/-- A constructed SDK loader, one variant per `BaseSdkLoader` subclass,
holding exactly the instance attributes each `__init__` stores. -/
inductive SdkLoader : Type
  /-- `BranchSdkLoader`: `_download_dir`, `_branch`, `_branch_root`,
  `_branch_url`, `_branch_files`, `_version` -/
  | branchL (downloadDir : String) (branch : Option String)
      (branchRoot branchUrl : String)
      (branchFiles : List ((FileType × String) × String))
      (version : Option String)
  /-- `UpdateChannelSdkLoader`: `_download_dir`, `channel`,
  `index_html_url`, `version_info` -/
  | channelL (downloadDir : String) (channel : UpdateChannel)
      (indexHtmlUrl : String) (versionInfo : VersionData)
  /-- `UrlSdkLoader`: `_download_dir`, `url` -/
  | urlL (downloadDir : String) (url : Option String)
  /-- `LocalSdkLoader`: `_download_dir`, `file_path` -/
  | localL (downloadDir : String) (filePath : Option String)
deriving DecidableEq, Repr

/-- `UpdateChannelSdkLoader.OFFICIAL_INDEX_URL`. -/
def OFFICIAL_INDEX_URL : String := "https://update.flipperzero.one/firmware/directory.json"

/-- `BranchSdkLoader.UPDATE_SERVER_BRANCH_ROOT`. -/
def UPDATE_SERVER_BRANCH_ROOT : String := "https://update.flipperzero.one/builds/firmware"

/-- `UpdateChannelSdkLoader._fetch_version` (lines 222-243): fetch and
parse the directory JSON, select the requested channel, and return the
first entry of its `versions` list. -/
def fetch_version (w : World) (indexHtmlUrl : String) (channel : UpdateChannel) :
    Except PyErr VersionData :=
  match w.directoryJson indexHtmlUrl with
  | none => .error .urlError
  | some none => .error (.valueError "Invalid JSON")
  | some (some data) =>
    match data.channels with
    | [] => .error (.valueError "Invalid channel")
    | _ :: _ =>
      match data.channels.find? (fun c => c.id == channelValue channel) with
      | none => .error (.valueError "Invalid channel")
      | some channelData =>
        match channelData.versions with
        | [] => .error (.valueError "Empty channel")
        | v :: _ => .ok v

/-- `UpdateChannelSdkLoader._get_file_info` (lines 245-263): the first file
whose `type` is the requested file type's value and whose `target` equals
the requested target.  (The hardware target may be `None`, in which case no
string `target` field compares equal.) -/
def get_file_info (versionData : VersionData) (fileType : FileType)
    (fileTarget : Option String) : Except PyErr FileInfo :=
  match versionData.files with
  | [] => .error (.valueError "Empty files list")
  | _ :: _ =>
    match versionData.files.find?
        (fun f => f.ftype == ftValue fileType && some f.target == fileTarget) with
    | none => .error (.valueError "Invalid file type")
    | some fileInfo => .ok fileInfo

/-- `get_sdk_component` of each loader (lines 157-161, 265-270, 320-322,
362-364): produce a local path to the SDK archive, downloading when needed.
Success returns the path the Python method returns (which for
`LocalSdkLoader` is the stored `file_path` object itself, possibly `None`)
together with the download events performed. -/
def get_sdk_component (w : World) (L : SdkLoader) (target : Option String) :
    Except PyErr (Option String × List Event) :=
  match L with
  | .branchL downloadDir _ _ branchUrl branchFiles _ =>
    match target with
    | none => .error (.valueError "SDK bundle not found")
    | some t =>
      match aget branchFiles (FileType.SDK_ZIP, t) with
      | none => .error (.valueError "SDK bundle not found")
      | some fileName =>
        if fileName = "" then .error (.valueError "SDK bundle not found")
        else
          match fetch_file w downloadDir (branchUrl ++ fileName) with
          | .error e => .error e
          | .ok (p, ev) => .ok (some p, ev)
  | .channelL downloadDir _ _ versionInfo =>
    match get_file_info versionInfo FileType.SDK_ZIP target with
    | .error e => .error e
    | .ok fileInfo =>
      match fileInfo.url with
      | none => .error (.valueError "Invalid file url")
      | some fileUrl =>
        if fileUrl = "" then .error (.valueError "Invalid file url")
        else
          match fetch_file w downloadDir fileUrl with
          | .error e => .error e
          | .ok (p, ev) => .ok (some p, ev)
  | .urlL downloadDir url =>
    match url with
    | none => .error .typeError
    | some u =>
      match fetch_file w downloadDir u with
      | .error e => .error e
      | .ok (p, ev) => .ok (some p, ev)
  | .localL _ filePath => .ok (filePath, [])

/-- `get_metadata` of each loader (lines 163-169, 272-278, 324-329,
366-371), as the flat metadata dict in the source's key order. -/
def get_metadata : SdkLoader → PyDict
  | .branchL _ branch branchRoot _ _ version =>
    [("mode", some "branch"), ("branch", branch), ("version", version),
     ("branch_root", some branchRoot)]
  | .channelL _ channel indexHtmlUrl versionInfo =>
    [("mode", some "channel"),
     ("channel", some (strLower (channelMemberName channel))),
     ("index_html", some indexHtmlUrl),
     ("version", some versionInfo.version)]
  | .urlL _ url =>
    [("mode", some "url"), ("url", url), ("version", some VERSION_UNKNOWN)]
  | .localL _ filePath =>
    [("mode", some "local"), ("file_path", filePath),
     ("version", some VERSION_UNKNOWN)]

/-- The loader classes, used as values by the factory loop. -/
inductive LoaderCls : Type
  | branchCls | channelCls | urlCls | localCls
deriving DecidableEq, Repr

/-- `LOADER_MODE_KEY` of each class. -/
def LOADER_MODE_KEY : LoaderCls → String
  | .branchCls => "branch"
  | .channelCls => "channel"
  | .urlCls => "url"
  | .localCls => "local"

/-- The class of a constructed loader. -/
def clsOf : SdkLoader → LoaderCls
  | .branchL .. => .branchCls
  | .channelL .. => .channelCls
  | .urlL .. => .urlCls
  | .localL .. => .localCls

/-- `all_boostrap_loader_cls` (lines 391-396; the source's spelling). -/
def all_boostrap_loader_cls : List LoaderCls :=
  [.branchCls, .channelCls, .urlCls, .localCls]

/-- The constructor keyword arguments produced by each
`metadata_to_init_kwargs` classmethod. -/
inductive InitKwargs : Type
  /-- `branch=`, `branch_root_url=` -/
  | branchK (branch : Option String) (branchRootUrl : Option String)
  /-- `channel=`, `index_html_url=` -/
  | channelK (channel : UpdateChannel) (indexHtmlUrl : Option String)
  /-- `url=` -/
  | urlK (url : Option String)
  /-- `file_path=` -/
  | localK (filePath : Option String)
deriving DecidableEq, Repr

/-- `metadata_to_init_kwargs` of each class (lines 171-178, 280-287,
331-333, 373-375).  `metadata["k"]` raises `KeyError` on an absent key but
happily returns a stored `None`; `metadata["channel"].upper()` raises
`AttributeError` on `None` and the enum member lookup raises `KeyError` on
an unknown name. -/
def metadata_to_init_kwargs (cls : LoaderCls) (metadata : PyDict) :
    Except PyErr InitKwargs :=
  match cls with
  | .branchCls =>
    match dlookup metadata "branch" with
    | none => .error (.keyError "branch")
    | some b =>
      .ok (.branchK b
        (match dlookup metadata "branch_root" with
         | none => some UPDATE_SERVER_BRANCH_ROOT
         | some v => v))
  | .channelCls =>
    match dlookup metadata "channel" with
    | none => .error (.keyError "channel")
    | some none => .error .attributeError
    | some (some s) =>
      match channelOfName (strUpper s) with
      | none => .error (.keyError (strUpper s))
      | some c => .ok (.channelK c (pyGet metadata "index_html"))
  | .urlCls =>
    match dlookup metadata "url" with
    | none => .error (.keyError "url")
    | some u => .ok (.urlK u)
  | .localCls =>
    match dlookup metadata "file_path" with
    | none => .error (.keyError "file_path")
    | some p => .ok (.localK p)

/-- The `__init__` of each loader class applied to the factory's keyword
arguments (lines 137-155, 214-220, 316-318, 358-360).  The branch loader
fetches and parses its index page and the channel loader resolves its
version during construction; both can raise. -/
def construct (w : World) (downloadDir : String) : InitKwargs → Except PyErr SdkLoader
  | .branchK branch branchRootUrl =>
    let branchRoot := pyOr branchRootUrl UPDATE_SERVER_BRANCH_ROOT
    let branchUrl := branchRoot ++ "/" ++ pyStrOpt branch ++ "/"
    match w.branchPage branchUrl with
    | none => .error .urlError
    | some anchors =>
      match runExtractor anchors with
      | .error e => .error e
      | .ok st => .ok (.branchL downloadDir branch branchRoot branchUrl st.files st.version)
  | .channelK channel indexHtmlUrl =>
    let indexUrl := pyOr indexHtmlUrl OFFICIAL_INDEX_URL
    match fetch_version w indexUrl channel with
    | .error e => .error e
    | .ok versionInfo => .ok (.channelL downloadDir channel indexUrl versionInfo)
  | .urlK url => .ok (.urlL downloadDir url)
  | .localK filePath => .ok (.localL downloadDir filePath)

/-- `SdkDeployTask` (lines 402-411). -/
structure SdkDeployTask : Type where
  hw_target : Option String := none
  force : Bool := false
  mode : Option String := none
  all_params : PyDict := []
deriving DecidableEq, Repr

/-- `SdkDeployTask.DEFAULT_HW_TARGET`. -/
def DEFAULT_HW_TARGET : String := "f7"

/-- The parameter-merging loop of `update_from` (lines 424-426): every
truthy value of the request overwrites the stored parameter dict. -/
def mergeParams (base other : PyDict) : PyDict :=
  other.foldl (fun acc kv => if pyTruthy kv.2 then aset acc kv.1 kv.2 else acc) base

/-- `SdkDeployTask.update_from` (lines 415-427), as a function returning the
mutated `self`: truthy `hw_target` and `mode` of the request overwrite,
`force` is always taken from the request, truthy request parameters
overwrite stored ones. -/
def SdkDeployTask.update_from (self other : SdkDeployTask) : SdkDeployTask :=
  { hw_target := if pyTruthy other.hw_target then other.hw_target else self.hw_target
  , force := other.force
  , mode := if pyTruthy other.mode then other.mode else self.mode
  , all_params := mergeParams self.all_params other.all_params }

/-- `SdkDeployTask.default` (lines 429-435). -/
def SdkDeployTask.default : SdkDeployTask :=
  { hw_target := some DEFAULT_HW_TARGET
  , force := false
  , mode := some "channel"
  , all_params := aset ([] : PyDict) "channel" (some (channelValue UpdateChannel.RELEASE)) }

/-- `SdkDeployTask.from_dict` (lines 450-457): the persisted state dict
becomes a task with `force = False` and the whole dict as parameters. -/
def SdkDeployTask.from_dict (data : PyDict) : SdkDeployTask :=
  { hw_target := pyGet data "hw_target"
  , force := false
  , mode := pyGet data "mode"
  , all_params := data }

/-- The `for loader_cls in all_boostrap_loader_cls: if ... == task.mode:
break` loop of `SdkLoaderFactory.create_for_task` (lines 464-467), with
Python semantics: the loop variable keeps its last binding when no `break`
fires, so over a nonempty class list it never remains `None`. -/
def loaderClsLoop (mode : Option String) :
    Option LoaderCls → List LoaderCls → Option LoaderCls
  | cur, [] => cur
  | _, c :: cs =>
    if some (LOADER_MODE_KEY c) = mode then some c
    else loaderClsLoop mode (some c) cs

/-- `SdkLoaderFactory.create_for_task` (lines 460-473).  The
`if loader_cls is None: raise ValueError("Invalid mode")` check of the
source is the `none` branch; over the fixed nonempty class list the loop
always leaves the variable bound, so that branch is unreachable and an
unmatched mode falls through to the last class (`LocalSdkLoader`). -/
def create_for_task (w : World) (task : SdkDeployTask) (downloadDir : String) :
    Except PyErr SdkLoader :=
  match loaderClsLoop task.mode none all_boostrap_loader_cls with
  | none => .error (.valueError "Invalid mode")
  | some cls =>
    match metadata_to_init_kwargs cls task.all_params with
    | .error e => .error e
    | .ok kwargs => construct w downloadDir kwargs

/-- `UfbtSdkDeployer` (lines 476-483): the state directory root. -/
structure UfbtSdkDeployer : Type where
  ufbt_state_dir : String
deriving DecidableEq, Repr

/-- `self.download_dir`. -/
def download_dir (d : UfbtSdkDeployer) : String := d.ufbt_state_dir ++ "/download"

/-- `self.current_sdk_dir`. -/
def current_sdk_dir (d : UfbtSdkDeployer) : String := d.ufbt_state_dir ++ "/current"

/-- `self.state_file`. -/
def state_file (d : UfbtSdkDeployer) : String := current_sdk_dir d ++ "/ufbt_state.json"

/-- `UfbtSdkDeployer.get_previous_task` (lines 485-491) on the modelled
filesystem: `None` when the state file does not exist, otherwise the task
rebuilt from the parsed state dict. -/
def get_previous_task (fs : FS) : Option SdkDeployTask :=
  fs.stateFile.map SdkDeployTask.from_dict

/-- The pre-fetch portion of `deploy` (lines 499-511): when `force` is not
set and the deployed directory exists, open and read the state file
(raising `FileNotFoundError` when it is absent), then either fall through
to the fetch (`none`) because the persisted version is an always-stale
sentinel or differs from the freshly resolved one, or return up-to-date
(`some (.ok true)`). -/
def pre_check (L : SdkLoader) (task : SdkDeployTask) (fs : FS) :
    Option (Except PyErr Bool) :=
  if !task.force && fs.dirExists then
    match fs.stateFile with
    | none => some (.error .fileNotFoundError)
    | some st =>
      if optMem (pyGet st "version") ALWAYS_UPDATE_VERSIONS then none
      else if pyGet st "version" = pyGet (get_metadata L) "version"
              ∧ pyGet st "hw_target" = task.hw_target then some (.ok true)
      else none
  else none

/-- The fetch-and-install portion of `deploy` (lines 513-534): fetch the
SDK component, returning `False` on any exception; then remove the deployed
directory, build the new state dict, extract the archive (raising
`FileNotFoundError` / `BadZipFile` when `ZipFile` cannot open it — after
the removal), and finally write the state file. -/
def deploy_fetch (w : World) (task : SdkDeployTask) (L : SdkLoader) (fs : FS) :
    Except PyErr Bool × FS × List Event :=
  match get_sdk_component w L task.hw_target with
  | .error _ => (.ok false, fs, [])
  | .ok (componentPath, ev) =>
    let fs1 : FS := { fs with downloads := fs.downloads ++ eventDownloads ev }
    let fs2 : FS := { fs1 with dirExists := false, stateFile := none }
    -- `{"hw_target": ..., **metadata}`; no metadata variant carries an
    -- "hw_target" key, so the cons has unique keys like the Python dict
    let newState : PyDict := ("hw_target", task.hw_target) :: get_metadata L
    match componentPath with
    | none => (.error .typeError, fs2, ev ++ [.rmtree])
    | some p =>
      if w.fileExists p then
        if w.zipValid p then
          (.ok true,
           { fs2 with dirExists := true, stateFile := some newState },
           ev ++ [.rmtree, .extractall p, .writeState])
        else (.error .badZipFile, fs2, ev ++ [.rmtree])
      else (.error .fileNotFoundError, fs2, ev ++ [.rmtree])

/-- `UfbtSdkDeployer.deploy` (lines 493-534): build the loader for the task
(resolution happens here and propagates its exceptions), run the staleness
check, then fetch and install. -/
def deploy (w : World) (d : UfbtSdkDeployer) (task : SdkDeployTask) (fs : FS) :
    Except PyErr Bool × FS × List Event :=
  match create_for_task w task (download_dir d) with
  | .error e => (.error e, fs, [])
  | .ok L =>
    match pre_check L task fs with
    | some r => (r, fs, [])
    | none => deploy_fetch w task L fs

/-- The task-selection logic of `UpdateSubcommand._func` (lines 577-594):
with a previous task, merge the request into it; without one, use the
request when it sets a mode and the default task otherwise. -/
def select_task_to_deploy (previous : Option SdkDeployTask)
    (current : SdkDeployTask) : SdkDeployTask :=
  match previous with
  | some p => p.update_from current
  | none => if pyTruthy current.mode then current else SdkDeployTask.default

/-! ### Concrete fixtures used by witnesses and counterexamples -/

/-- A world in which every network access fails and no archive opens. -/
def Wtriv : World :=
  ⟨fun _ => none, fun _ => none, fun _ => none, fun _ => false, fun _ => false⟩

/-- A deployer rooted at a concrete state directory. -/
def D0 : UfbtSdkDeployer := ⟨"/home/u/.ufbt"⟩

/-- Branch index anchor carrying version `1`. -/
def A1c5 : Anchor := ("a", [("href", some "flipper-z-f7-sdk-1.zip")])

/-- Branch index anchor carrying version `1a`. -/
def A2c5 : Anchor := ("a", [("href", some "flipper-z-f7-lib-1a.zip")])

/-- Branch index anchor carrying version `1b`. -/
def A3c5 : Anchor := ("a", [("href", some "flipper-z-f7-sdk-1b.zip")])

/-- The extractor state produced by the three-anchor index above. -/
def EXT5 : ExtState :=
  ⟨[((FileType.SDK_ZIP, "f7"), "flipper-z-f7-sdk-1b.zip"),
    ((FileType.LIB_ZIP, "f7"), "flipper-z-f7-lib-1a.zip")], some "1"⟩

/-- A world in which every download succeeds and every archive opens. -/
def W2 : World :=
  ⟨fun _ => none, fun _ => none, fun _ => some (), fun _ => true, fun _ => true⟩

/-- A url-mode deploy task. -/
def T2 : SdkDeployTask :=
  { hw_target := some "f7", force := false, mode := some "url"
  , all_params := [("url", some "http://ex/sdk.zip")] }

/-- The state dict persisted by deploying `T2`. -/
def ST2 : PyDict :=
  [("hw_target", some "f7"), ("mode", some "url"),
   ("url", some "http://ex/sdk.zip"), ("version", some "unknown")]

/-- The download path produced by fetching `T2`'s url. -/
def P2 : String := "/home/u/.ufbt/download/sdk.zip"

/-- Filesystem after the first deploy of `T2`. -/
def FS21 : FS := ⟨true, some ST2, [P2]⟩

/-- Filesystem after the second deploy of `T2`. -/
def FS22 : FS := ⟨true, some ST2, [P2, P2]⟩

/-- Trace of each (re-)deploy of `T2`. -/
def TR2 : List Event := [.downloadWrite P2, .rmtree, .extractall P2, .writeState]

/-- A one-channel directory index whose `release` channel resolves to
version `1.0` with an `sdk_zip` for target `f7`. -/
def DIRX : DirectoryIndex :=
  ⟨[⟨"release", [⟨"1.0", [⟨"sdk_zip", "f7", some "http://e/sdk.zip"⟩]⟩]⟩]⟩

/-- A world serving `DIRX` with working downloads and archives. -/
def WC : World :=
  ⟨fun _ => none, fun _ => some (some DIRX), fun _ => some (), fun _ => true, fun _ => true⟩

/-- A channel-mode deploy task for the `release` channel. -/
def TCh : SdkDeployTask :=
  { hw_target := some "f7", force := false, mode := some "channel"
  , all_params := [("channel", some "release")] }

/-- The loader `create_for_task` builds for `TCh` against `WC`. -/
def LCh : SdkLoader :=
  .channelL (download_dir D0) UpdateChannel.RELEASE OFFICIAL_INDEX_URL
    ⟨"1.0", [⟨"sdk_zip", "f7", some "http://e/sdk.zip"⟩]⟩

/-- The state dict persisted by deploying `TCh`. -/
def STCh : PyDict :=
  [("hw_target", some "f7"), ("mode", some "channel"),
   ("channel", some "release"), ("index_html", some OFFICIAL_INDEX_URL),
   ("version", some "1.0")]

/-- Filesystem after the first deploy of `TCh`. -/
def FSCh1 : FS := ⟨true, some STCh, [P2]⟩

/-- Trace of the first deploy of `TCh`. -/
def TRCh : List Event := [.downloadWrite P2, .rmtree, .extractall P2, .writeState]

/-- A local-mode task pointing at a file that does not exist in `Wtriv`. -/
def T7 : SdkDeployTask :=
  { hw_target := some "f7", force := false, mode := some "local"
  , all_params := [("file_path", some "/missing/sdk.zip")] }

/-- A filesystem holding a healthy previous deployment (version `1.0`). -/
def FS7 : FS :=
  ⟨true, some [("hw_target", some "f7"), ("mode", some "channel"),
               ("version", some "1.0")], []⟩

/-- A url-mode task used with the failing world `Wtriv`. -/
def T1 : SdkDeployTask :=
  { hw_target := some "f7", force := false, mode := some "url"
  , all_params := [("url", some "http://ex/sdk.zip")] }

/-- A local-mode task used for the missing-state-file witness. -/
def T10 : SdkDeployTask :=
  { hw_target := some "f7", force := false, mode := some "local"
  , all_params := [("file_path", some "/sdk.zip")] }

/-- A concrete persisted task for the merge witnesses. -/
def P3 : SdkDeployTask :=
  { hw_target := some "f7", force := false, mode := some "channel"
  , all_params := [("channel", some "release"), ("version", some "1.0")] }

/-- A concrete inert request (only `force` set) for the merge witnesses. -/
def R3 : SdkDeployTask :=
  { hw_target := none, force := true, mode := none
  , all_params := [("channel", none), ("url", some "")] }

/-- A concrete request with a mode, for the no-previous-state witness. -/
def R4 : SdkDeployTask :=
  { hw_target := some "f18", force := false, mode := some "branch"
  , all_params := [("branch", some "dev")] }

/-! ### Helper lemmas -/

/-- A parameter fold over entirely falsy values leaves the base dict
untouched. -/
theorem mergeParams_inert :
    ∀ (other base : PyDict), (∀ kv ∈ other, pyTruthy kv.2 = false) →
      mergeParams base other = base := by
  intro other
  induction other with
  | nil => intro base _; rfl
  | cons kv l ih =>
    intro base h
    have h1 : pyTruthy kv.2 = false := h kv (List.mem_cons_self _ _)
    have h2 : ∀ kv' ∈ l, pyTruthy kv'.2 = false :=
      fun kv' hm => h kv' (List.mem_cons_of_mem _ hm)
    unfold mergeParams at ih ⊢
    rw [List.foldl_cons, h1]
    simpa using ih base h2

/-- `pyGet` skips a cons cell with a different (literal) key. -/
theorem pyGet_cons_ne (k k' : String) (v : Option String) (d : PyDict)
    (h : (k' == k) = false) : pyGet ((k', v) :: d) k = pyGet d k := by
  unfold pyGet dlookup
  rw [List.find?_cons_of_neg]
  simp [h]

/-- `pyGet` reads the head cell when the key matches. -/
theorem pyGet_cons_eq (k : String) (v : Option String) (d : PyDict) :
    pyGet ((k, v) :: d) k = v := by
  unfold pyGet dlookup
  rw [List.find?_cons_of_pos] <;> simp

/-- Feeding `x or d` back through `or d` changes nothing. -/
theorem pyOr_idem (x : Option String) (d : String) :
    pyOr (some (pyOr x d)) d = pyOr x d := by
  have hy : pyOr x d = d ∨ pyOr x d ≠ "" := by
    cases x with
    | none => exact Or.inl rfl
    | some s =>
      by_cases h : s = ""
      · left; simp [pyOr, h]
      · right; simp [pyOr, h]
  rcases hy with h | h
  · rw [h]
    by_cases hd : d = "" <;> simp [pyOr, hd]
  · have hb : (pyOr x d == "") = false := by simpa using h
    conv_lhs => rw [pyOr]
    rw [hb]
    simp

/-! ### Claim theorems -/

/-- Claim C3: merging a request whose mode is unset, whose hardware target
is unset/empty, and whose parameter values are all empty into a persisted
task yields the persisted task unchanged except for `force`, which is taken
from the request. -/
theorem update_from_inert_request (p r : SdkDeployTask)
    (hm : pyTruthy r.mode = false) (hh : pyTruthy r.hw_target = false)
    (hp : ∀ kv ∈ r.all_params, pyTruthy kv.2 = false) :
    p.update_from r = { p with force := r.force } := by
  unfold SdkDeployTask.update_from
  rw [hm, hh, mergeParams_inert r.all_params p.all_params hp]
  simp

/-- Witness for C3 at a concrete persisted task and inert request. -/
theorem update_from_inert_request_witness :
    P3.update_from R3 = { P3 with force := true } :=
  update_from_inert_request P3 R3 rfl rfl (by decide)

/-- Claim C4: with no persisted state, a request with no mode deploys the
default task (target `f7`, channel mode, `release` channel), and a request
that sets a mode is deployed exactly as requested. -/
theorem select_task_no_previous (r : SdkDeployTask) :
    (r.mode = none →
      select_task_to_deploy none r = SdkDeployTask.default ∧
      SdkDeployTask.default.hw_target = some "f7" ∧
      SdkDeployTask.default.mode = some "channel" ∧
      pyGet SdkDeployTask.default.all_params "channel" = some "release")
    ∧ (pyTruthy r.mode = true → select_task_to_deploy none r = r) := by
  constructor
  · intro h
    refine ⟨?_, rfl, rfl, rfl⟩
    unfold select_task_to_deploy
    rw [h]
    rfl
  · intro h
    unfold select_task_to_deploy
    rw [h]
    simp

/-- Witness for C4: both branches applied at concrete requests. -/
theorem select_task_no_previous_witness :
    select_task_to_deploy none { force := true } = SdkDeployTask.default ∧
    select_task_to_deploy none R4 = R4 :=
  ⟨((select_task_no_previous { force := true }).1 rfl).1,
   (select_task_no_previous R4).2 rfl⟩

/-- Counterexample for claim C8: the local loader's metadata carries the
version sentinel `"unknown"` (`VERSION_UNKNOWN`), not `"local"` as
claimed. -/
theorem local_metadata_version_not_local :
    pyGet (get_metadata (SdkLoader.localL "/dl" (some "/sdk.zip"))) "version"
      = some "unknown" ∧
    ¬ pyGet (get_metadata (SdkLoader.localL "/dl" (some "/sdk.zip"))) "version"
      = some "local" :=
  ⟨rfl, by decide⟩

/-- Claim C8 (amended): for every Local-variant loader the metadata version
field is the sentinel `"unknown"`, and `get_sdk_component` returns the
configured filesystem path unchanged for every hardware target, with no
download or other filesystem event. -/
theorem local_loader_metadata_and_component (w : World) (dd : String)
    (p : Option String) (t : Option String) :
    pyGet (get_metadata (SdkLoader.localL dd p)) "version" = some VERSION_UNKNOWN ∧
    get_sdk_component w (SdkLoader.localL dd p) t = .ok (p, []) :=
  ⟨rfl, rfl⟩

/-- Claim C9 evidence: on a task whose mode is not a loader key the factory
does not raise the invalid-mode `ValueError`; the class loop falls through
to `LocalSdkLoader`, so it raises `KeyError("file_path")` when that
parameter is absent and happily constructs a local loader when it is
present. -/
theorem factory_invalid_mode_falls_through :
    create_for_task Wtriv { mode := some "bogus", all_params := [] } "/dl"
      = .error (.keyError "file_path") ∧
    create_for_task Wtriv { mode := none, all_params := [] } "/dl"
      = .error (.keyError "file_path") ∧
    create_for_task Wtriv
      { mode := some "bogus", all_params := [("file_path", some "/x.zip")] } "/dl"
      = .ok (SdkLoader.localL "/dl" (some "/x.zip")) ∧
    ¬ create_for_task Wtriv { mode := some "bogus", all_params := [] } "/dl"
      = .error (.valueError "Invalid mode") := by
  refine ⟨rfl, rfl, rfl, ?_⟩
  intro h
  have h' : (Except.error (PyErr.keyError "file_path") : Except PyErr SdkLoader)
      = Except.error (PyErr.valueError "Invalid mode") := h
  injection h' with h2
  injection h2

/-- Claim C7 evidence: in local mode with a nonexistent file path, the
fetch step succeeds (no `FetchError`), after which `deploy` removes the
previously deployed directory and state file and only then raises
`FileNotFoundError` from `ZipFile` — the previous deployment is
destroyed, contradicting the claimed fail-safe. -/
theorem local_missing_file_destroys_deployment :
    create_for_task Wtriv T7 (download_dir D0)
      = .ok (SdkLoader.localL (download_dir D0) (some "/missing/sdk.zip")) ∧
    get_sdk_component Wtriv
      (SdkLoader.localL (download_dir D0) (some "/missing/sdk.zip")) T7.hw_target
      = .ok (some "/missing/sdk.zip", []) ∧
    deploy Wtriv D0 T7 FS7
      = (.error .fileNotFoundError, ⟨false, none, []⟩, [.rmtree]) :=
  ⟨rfl, rfl, rfl⟩

/-- Claim C10: when `force` is unset, the deployed directory exists but the
state file is absent, `deploy` raises `FileNotFoundError` from opening the
state file before any fetch, removal, or write: the result is the raised
exception with the filesystem unchanged and an empty event trace. -/
theorem deploy_missing_state_file_raises (w : World) (d : UfbtSdkDeployer)
    (task : SdkDeployTask) (fs : FS) (L : SdkLoader)
    (hL : create_for_task w task (download_dir d) = .ok L)
    (hf : task.force = false) (hd : fs.dirExists = true)
    (hs : fs.stateFile = none) :
    deploy w d task fs = (.error .fileNotFoundError, fs, []) := by
  unfold deploy
  rw [hL]
  unfold pre_check
  rw [hf, hd, hs]
  simp

/-- Witness for C10 at a concrete local-mode task. -/
theorem deploy_missing_state_file_raises_witness :
    deploy Wtriv D0 T10 ⟨true, none, []⟩
      = (.error .fileNotFoundError, ⟨true, none, []⟩, []) :=
  deploy_missing_state_file_raises Wtriv D0 T10 ⟨true, none, []⟩
    (SdkLoader.localL (download_dir D0) (some "/sdk.zip")) rfl rfl rfl rfl

/-- Claim C1: the deployed-directory removal and the state-file write occur
only after `get_sdk_component` has returned successfully, and when the
fetch step is reached and `get_sdk_component` raises, `deploy` returns
failure with the filesystem exactly as before and an empty event trace. -/
theorem deploy_failsafe_on_fetch_error (w : World) (d : UfbtSdkDeployer)
    (task : SdkDeployTask) (fs : FS) (L : SdkLoader)
    (hL : create_for_task w task (download_dir d) = .ok L) :
    (∀ res fs' tr, deploy w d task fs = (res, fs', tr) →
        Event.rmtree ∈ tr ∨ Event.writeState ∈ tr →
        ∃ pr, get_sdk_component w L task.hw_target = .ok pr)
    ∧ (∀ e, get_sdk_component w L task.hw_target = .error e →
        pre_check L task fs = none →
        deploy w d task fs = (.ok false, fs, [])) := by
  constructor
  · intro res fs' tr hdep hmem
    simp only [deploy, hL] at hdep
    cases hpc : pre_check L task fs with
    | some r =>
      rw [hpc] at hdep
      have htr : tr = [] := by
        have := congrArg (fun x => x.2.2) hdep
        simpa using this.symm
      subst htr
      simp at hmem
    | none =>
      rw [hpc] at hdep
      cases hgc : get_sdk_component w L task.hw_target with
      | error e =>
        simp only [deploy_fetch, hgc] at hdep
        have htr : tr = [] := by
          have := congrArg (fun x => x.2.2) hdep
          simpa using this.symm
        subst htr
        simp at hmem
      | ok pr => exact ⟨pr, rfl⟩
  · intro e hgc hpc
    simp only [deploy, hL, hpc, deploy_fetch, hgc]

/-- Witness for C1: a url-mode task against a world whose downloads fail. -/
theorem deploy_failsafe_on_fetch_error_witness :
    deploy Wtriv D0 T1 ⟨false, none, []⟩ = (.ok false, ⟨false, none, []⟩, []) :=
  (deploy_failsafe_on_fetch_error Wtriv D0 T1 ⟨false, none, []⟩
    (SdkLoader.urlL (download_dir D0) (some "http://ex/sdk.zip")) rfl).2
    .urlError rfl rfl

/-- A successful full (non-skip) run of the fetch-and-install phase:
characterises the fetched component, the final filesystem and the trace. -/
theorem deploy_fetch_ok_true {w : World} {task : SdkDeployTask} {L : SdkLoader}
    {fs fs₁ : FS} {tr : List Event}
    (h : deploy_fetch w task L fs = (.ok true, fs₁, tr)) :
    ∃ p ev, get_sdk_component w L task.hw_target = .ok (some p, ev) ∧
      fs₁ = ⟨true, some (("hw_target", task.hw_target) :: get_metadata L),
             fs.downloads ++ eventDownloads ev⟩ ∧
      tr = ev ++ [.rmtree, .extractall p, .writeState] := by
  cases hgc : get_sdk_component w L task.hw_target with
  | error e => simp [deploy_fetch, hgc] at h
  | ok pr =>
    obtain ⟨cp, ev⟩ := pr
    cases cp with
    | none => simp [deploy_fetch, hgc] at h
    | some p =>
      by_cases hfe : w.fileExists p = true
      · by_cases hzv : w.zipValid p = true
        · obtain ⟨de, sf, dl⟩ := fs
          simp only [deploy_fetch, hgc, hfe, hzv, if_true] at h
          refine ⟨p, ev, rfl, ?_, ?_⟩
          · have h2 := congrArg (fun x => x.2.1) h
            simpa using h2.symm
          · have h3 := congrArg (fun x => x.2.2) h
            simpa using h3.symm
        · simp [deploy_fetch, hgc, hfe, hzv] at h
      · simp [deploy_fetch, hgc, hfe] at h

/-- The staleness check returns the up-to-date skip exactly under the
conditions of claim C2. -/
theorem pre_check_eq_skip_iff (L : SdkLoader) (task : SdkDeployTask) (fs : FS) :
    pre_check L task fs = some (.ok true) ↔
      task.force = false ∧ fs.dirExists = true ∧ ∃ st, fs.stateFile = some st ∧
        optMem (pyGet st "version") ALWAYS_UPDATE_VERSIONS = false ∧
        pyGet st "version" = pyGet (get_metadata L) "version" ∧
        pyGet st "hw_target" = task.hw_target := by
  by_cases hf : task.force = true
  · simp [pre_check, hf]
  · have hf' : task.force = false := by simpa using hf
    by_cases hd : fs.dirExists = true
    · cases hst : fs.stateFile with
      | none => simp [pre_check, hf', hd, hst]
      | some st =>
        by_cases hsent : optMem (pyGet st "version") ALWAYS_UPDATE_VERSIONS = true
        · simp [pre_check, hf', hd, hst, hsent]
        · have hsent' : optMem (pyGet st "version") ALWAYS_UPDATE_VERSIONS = false := by
            simpa using hsent
          by_cases hcond : pyGet st "version" = pyGet (get_metadata L) "version"
              ∧ pyGet st "hw_target" = task.hw_target
          · simp [pre_check, hf', hd, hst, hsent', hcond]
          · simp only [pre_check, hf', hd, hst, hsent', Bool.not_false, Bool.true_and,
              if_true, Bool.false_eq_true, if_false]
            rw [if_neg hcond]
            simp only [reduceCtorEq, false_iff, not_and, not_exists]
            intro _ _ st' hst'
            obtain rfl : st = st' := by simpa using hst'
            intro _ h1 h2
            exact hcond ⟨h1, h2⟩
    · have hd' : fs.dirExists = false := by simpa using hd
      simp [pre_check, hf', hd']

/-- Claim C2 (amended): `deploy` skips — success returned with the
filesystem untouched and an empty event trace — exactly when `force` is
false, the deployed directory exists, the persisted version is not an
always-stale sentinel, it equals the loader's freshly resolved version and
the persisted hardware target equals the task's; consequently deploying
twice with an unchanged task whose `force` flag is false and a source whose
resolved version is not one of the sentinels performs no filesystem
mutation on the second call. -/
theorem deploy_skip_iff_and_idempotent (w : World) (d : UfbtSdkDeployer)
    (task : SdkDeployTask) (fs : FS) (L : SdkLoader)
    (hL : create_for_task w task (download_dir d) = .ok L) :
    (deploy w d task fs = (.ok true, fs, []) ↔
      task.force = false ∧ fs.dirExists = true ∧ ∃ st, fs.stateFile = some st ∧
        optMem (pyGet st "version") ALWAYS_UPDATE_VERSIONS = false ∧
        pyGet st "version" = pyGet (get_metadata L) "version" ∧
        pyGet st "hw_target" = task.hw_target)
    ∧ (optMem (pyGet (get_metadata L) "version") ALWAYS_UPDATE_VERSIONS = false →
       task.force = false →
       ∀ fs₁ tr, deploy w d task fs = (.ok true, fs₁, tr) →
         deploy w d task fs₁ = (.ok true, fs₁, [])) := by
  constructor
  · constructor
    · intro hdep
      apply (pre_check_eq_skip_iff L task fs).mp
      simp only [deploy, hL] at hdep
      cases hpc : pre_check L task fs with
      | some r =>
        rw [hpc] at hdep
        have h1 : r = .ok true := congrArg (fun x => x.1) hdep
        exact congrArg some h1
      | none =>
        rw [hpc] at hdep
        obtain ⟨p, ev, -, -, htr⟩ := deploy_fetch_ok_true hdep
        simp at htr
    · intro hconds
      have hpc : pre_check L task fs = some (.ok true) :=
        (pre_check_eq_skip_iff L task fs).mpr hconds
      simp only [deploy, hL, hpc]
  · intro hver hforce fs₁ tr hdep
    simp only [deploy, hL] at hdep
    cases hpc : pre_check L task fs with
    | some r =>
      rw [hpc] at hdep
      have h1 : r = .ok true := congrArg (fun x => x.1) hdep
      have h2 : fs = fs₁ := congrArg (fun x => x.2.1) hdep
      subst h2
      rw [h1] at hpc
      simp only [deploy, hL, hpc]
    | none =>
      rw [hpc] at hdep
      obtain ⟨p, ev, -, hfs, -⟩ := deploy_fetch_ok_true hdep
      have hpc1 : pre_check L task fs₁ = some (.ok true) := by
        apply (pre_check_eq_skip_iff L task fs₁).mpr
        refine ⟨hforce, ?_, ("hw_target", task.hw_target) :: get_metadata L, ?_, ?_, ?_, ?_⟩
        · rw [hfs]
        · rw [hfs]
        · rw [pyGet_cons_ne "version" "hw_target" _ _ (by decide)]
          exact hver
        · rw [pyGet_cons_ne "version" "hw_target" _ _ (by decide)]
        · rw [pyGet_cons_eq]
      simp only [deploy, hL, hpc1]

/-- Counterexample for claim C2's idempotence consequent: a url-mode task,
unchanged between two calls, whose source resolves to the same version
(`"unknown"`) both times, still mutates the filesystem on the second call —
the sentinel version forces a full re-deploy (download, directory removal,
re-extraction, state rewrite). -/
theorem second_deploy_mutates_for_url_source :
    create_for_task W2 T2 (download_dir D0)
      = .ok (SdkLoader.urlL (download_dir D0) (some "http://ex/sdk.zip")) ∧
    pyGet (get_metadata (SdkLoader.urlL (download_dir D0) (some "http://ex/sdk.zip")))
      "version" = some "unknown" ∧
    deploy W2 D0 T2 ⟨false, none, []⟩ = (.ok true, FS21, TR2) ∧
    deploy W2 D0 T2 FS21 = (.ok true, FS22, TR2) ∧
    TR2 ≠ [] ∧ Event.rmtree ∈ TR2 :=
  ⟨rfl, rfl, rfl, rfl, by decide, by decide⟩

/-- Witness for C2 at a concrete channel source resolving to version
`1.0`: the second deploy after a successful one is a pure skip. -/
theorem deploy_skip_iff_and_idempotent_witness :
    deploy WC D0 TCh FSCh1 = (.ok true, FSCh1, []) :=
  (deploy_skip_iff_and_idempotent WC D0 TCh ⟨false, none, []⟩ LCh rfl).2
    rfl rfl FSCh1 TRCh rfl

/-- Every string is a prefix-extension of itself. -/
theorem pyStartsWith_self (s : String) : pyStartsWith s s = true := by
  simp [pyStartsWith]

/-- A candidate split has the split's own nonempty prefix as group 3. -/
theorem dotCandidate_shape {pr : List Char × List Char} {g3 rest : List Char}
    (h : dotCandidate pr = some (g3, rest)) : g3 = pr.1 ∧ g3 ≠ [] := by
  unfold dotCandidate at h
  split at h
  · simp at h
  · split at h
    · rename_i hcond
      obtain ⟨h1, h2⟩ : pr.1 = g3 ∧ _ = rest := by simpa using h
      exact ⟨h1.symm, h1 ▸ hcond.2.1⟩
    · simp at h

/-- The version group selected by `lastDotSplit` is nonempty. -/
theorem lastDotSplit_pre_ne_nil {r g3 rest : List Char}
    (h : lastDotSplit r = some (g3, rest)) : g3 ≠ [] := by
  have hm : (g3, rest) ∈ (splitsCh r).filterMap dotCandidate :=
    List.mem_of_getLast?_eq_some h
  obtain ⟨pr, -, hc⟩ := List.mem_filterMap.mp hm
  exact (dotCandidate_shape hc).2

/-- The version string of any matching filename is nonempty. -/
theorem matchFileName_version_ne {h t ft v e : String}
    (hm : matchFileName h = some (t, ft, v, e)) : v ≠ "" := by
  unfold matchFileName at hm
  split at hm
  · simp at hm
  · split at hm
    · simp at hm
    · split at hm
      · simp at hm
      · split at hm
        · simp at hm
        · rename_i g3 g4 htail
          unfold matchTail at htail
          split at htail
          · simp at htail
          · rename_i g3' rest hsplit
            obtain ⟨hg3, -⟩ : (⟨g3'⟩ : String) = g3 ∧ _ = g4 := by simpa using htail
            obtain ⟨-, -, hv, -⟩ :
                _ = t ∧ _ = ft ∧ g3 = v ∧ g4 = e := by simpa using hm
            intro hcon
            apply lastDotSplit_pre_ne_nil hsplit
            have : (⟨g3'⟩ : String) = "" := by rw [hg3, hv, hcon]
            simpa using congrArg String.data this

/-- The version group of a matching anchor is nonempty. -/
theorem anchorMatch_version_ne {tag : String} {attrs : List (String × Option String)}
    {h t ft v e : String}
    (ham : anchorMatch tag attrs = some (h, t, ft, v, e)) : v ≠ "" := by
  unfold anchorMatch at ham
  split at ham
  · split at ham
    · simp at ham
    · split at ham
      · simp at ham
      · split at ham
        · simp at ham
        · split at ham
          · simp at ham
          · rename_i t' ft' v' e' hm
            obtain ⟨-, -, -, hv, -⟩ :
                _ = h ∧ t' = t ∧ ft' = ft ∧ v' = v ∧ e' = e := by simpa using ham
            exact hv ▸ matchFileName_version_ne hm
  · simp at ham

/-- Once the extractor has a nonempty version, every later discovered
version must extend it or the run errors: on a successful run each
discovered version starts with the held version. -/
theorem runFrom_prefix_keeps (as : List Anchor) : ∀ (st st' : ExtState) (v0 : String),
    runFrom st as = .ok st' → st.version = some v0 → v0 ≠ "" →
    ∀ v ∈ discoveredVersions as, pyStartsWith v v0 = true := by
  induction as with
  | nil =>
    intro st st' v0 _ _ _ v hv
    simp [discoveredVersions] at hv
  | cons a as ih =>
    intro st st' v0 hrun hv0 hne v hv
    have htruthy : pyTruthy st.version = true := by
      rw [hv0]
      simpa [pyTruthy] using hne
    unfold runFrom at hrun
    cases hh : handle_starttag st a.1 a.2 with
    | error e =>
      rw [hh] at hrun
      exact absurd hrun (by simp)
    | ok st1 =>
      rw [hh] at hrun
      cases ham : anchorMatch a.1 a.2 with
      | none =>
        have hst1 : st = st1 := by simpa [handle_starttag, ham] using hh
        have hdv : discoveredVersions (a :: as) = discoveredVersions as := by
          simp [discoveredVersions, List.filterMap_cons, anchorVersion, ham]
        rw [hdv] at hv
        exact ih st1 st' v0 hrun (hst1 ▸ hv0) hne v hv
      | some tup =>
        obtain ⟨h', t, ft, ver, ex⟩ := tup
        have hdv : discoveredVersions (a :: as) = ver :: discoveredVersions as := by
          simp [discoveredVersions, List.filterMap_cons, anchorVersion, ham]
        simp only [handle_starttag, ham, htruthy] at hh
        by_cases hsw : pyStartsWith ver (st.version.getD "") = true
        · simp only [hsw, if_true, Bool.true_eq_false, if_false] at hh
          have hst1 : st1.version = st.version := by
            obtain hh' : _ = st1 := by simpa using hh
            exact (congrArg ExtState.version hh').symm
          rw [hdv] at hv
          rcases List.mem_cons.mp hv with rfl | hmem
          · rw [hv0] at hsw
            simpa using hsw
          · exact ih st1 st' v0 hrun (hst1.trans hv0) hne v hmem
        · simp [hsw] at hh

/-- From a freshly reset extractor, a successful run makes every
discovered version a prefix-extension of the first discovered version. -/
theorem runFrom_from_none (as : List Anchor) :
    ∀ (fls : List ((FileType × String) × String)) (st' : ExtState),
    runFrom ⟨fls, none⟩ as = .ok st' →
    ∀ v ∈ discoveredVersions as,
      pyStartsWith v ((discoveredVersions as).headD "") = true := by
  induction as with
  | nil =>
    intro fls st' _ v hv
    simp [discoveredVersions] at hv
  | cons a as ih =>
    intro fls st' hrun v hv
    unfold runFrom at hrun
    cases hh : handle_starttag ⟨fls, none⟩ a.1 a.2 with
    | error e =>
      rw [hh] at hrun
      exact absurd hrun (by simp)
    | ok st1 =>
      rw [hh] at hrun
      cases ham : anchorMatch a.1 a.2 with
      | none =>
        have hst1 : (⟨fls, none⟩ : ExtState) = st1 := by
          simpa [handle_starttag, ham] using hh
        have hdv : discoveredVersions (a :: as) = discoveredVersions as := by
          simp [discoveredVersions, List.filterMap_cons, anchorVersion, ham]
        rw [hdv] at hv ⊢
        exact ih fls st' (hst1 ▸ hrun) v hv
      | some tup =>
        obtain ⟨h', t, ft, ver, ex⟩ := tup
        have hne : ver ≠ "" := anchorMatch_version_ne ham
        have hdv : discoveredVersions (a :: as) = ver :: discoveredVersions as := by
          simp [discoveredVersions, List.filterMap_cons, anchorVersion, ham]
        simp only [handle_starttag, ham, pyTruthy] at hh
        obtain hh' : _ = st1 := by simpa using hh
        have hv1 : st1.version = some ver := (congrArg ExtState.version hh').symm
        rw [hdv] at hv ⊢
        simp only [List.headD_cons]
        rcases List.mem_cons.mp hv with rfl | hmem
        · exact pyStartsWith_self v
        · exact runFrom_prefix_keeps as st1 st' ver hrun hv1 hne v hmem

/-- Counterexample for claim C5: an index whose matching filenames carry
`1`, `1a` and `1b` — `1a` and `1b` are two version strings neither of
which is a prefix-compatible extension of the other — yet the extractor
succeeds, silently keeping version `1`, because each new version is only
compared against the first discovered version. -/
theorem extractor_accepts_incompatible_versions :
    discoveredVersions [A1c5, A2c5, A3c5] = ["1", "1a", "1b"] ∧
    pyStartsWith "1a" "1b" = false ∧ pyStartsWith "1b" "1a" = false ∧
    runExtractor [A1c5, A2c5, A3c5] = .ok EXT5 :=
  ⟨by decide, by decide, by decide, by decide⟩

/-- Claim C5 (amended): when the Branch variant parses an index, every
discovered version string must be a prefix-extension of the first
discovered version string — a matching filename whose version does not
start with the first discovered version raises the multiple-versions
error, so on every successful parse all discovered versions extend the
first (and hence share it as a common prefix). -/
theorem extractor_versions_extend_first (as : List Anchor) (st : ExtState)
    (hrun : runExtractor as = .ok st) :
    ∀ v ∈ discoveredVersions as,
      pyStartsWith v ((discoveredVersions as).headD "") = true :=
  runFrom_from_none as [] st hrun

/-- Witness for C5 at the concrete three-anchor index. -/
theorem extractor_versions_extend_first_witness :
    pyStartsWith "1b" ((discoveredVersions [A1c5, A2c5, A3c5]).headD "") = true :=
  extractor_versions_extend_first [A1c5, A2c5, A3c5] EXT5 (by decide) "1b" (by decide)

/-- A successfully constructed branch loader has the shape its `__init__`
stores: the given branch and the `or`-defaulted root. -/
theorem construct_branchK {w : World} {dd : String} {b r : Option String}
    {L : SdkLoader} (h : construct w dd (.branchK b r) = .ok L) :
    ∃ burl fls ver,
      L = .branchL dd b (pyOr r UPDATE_SERVER_BRANCH_ROOT) burl fls ver := by
  simp only [construct] at h
  split at h
  · simp at h
  · split at h
    · simp at h
    · exact ⟨_, _, _, by simpa using h.symm⟩

/-- A successfully constructed channel loader has the shape its `__init__`
stores: the given channel and the `or`-defaulted index URL. -/
theorem construct_channelK {w : World} {dd : String} {c : UpdateChannel}
    {i : Option String} {L : SdkLoader}
    (h : construct w dd (.channelK c i) = .ok L) :
    ∃ vi, L = .channelL dd c (pyOr i OFFICIAL_INDEX_URL) vi := by
  simp only [construct] at h
  split at h
  · simp at h
  · exact ⟨_, by simpa using h.symm⟩

/-- Claim C6: for every VersionSource variant, the loader→metadata and
metadata→constructor-arguments conversions are inverses — reconstructing a
loader from the metadata of a constructed loader and converting its own
metadata back yields the same constructor arguments (idempotent
round-trip of the mode-specific fields). -/
theorem metadata_kwargs_roundtrip (w w' : World) (dd dd' : String)
    (kw kw1 : InitKwargs) (L L' : SdkLoader)
    (h1 : construct w dd kw = .ok L)
    (h2 : metadata_to_init_kwargs (clsOf L) (get_metadata L) = .ok kw1)
    (h3 : construct w' dd' kw1 = .ok L') :
    metadata_to_init_kwargs (clsOf L') (get_metadata L') = .ok kw1 := by
  cases kw with
  | branchK b r =>
    obtain ⟨burl, fls, ver, rfl⟩ := construct_branchK h1
    have h2' : kw1 = .branchK b (some (pyOr r UPDATE_SERVER_BRANCH_ROOT)) := by
      have he : metadata_to_init_kwargs
          (clsOf (SdkLoader.branchL dd b (pyOr r UPDATE_SERVER_BRANCH_ROOT) burl fls ver))
          (get_metadata (SdkLoader.branchL dd b (pyOr r UPDATE_SERVER_BRANCH_ROOT) burl fls ver))
          = .ok (.branchK b (some (pyOr r UPDATE_SERVER_BRANCH_ROOT))) := rfl
      rw [he] at h2
      have h2'' := Except.ok.inj h2
      exact h2''.symm
    subst h2'
    obtain ⟨burl', fls', ver', rfl⟩ := construct_branchK h3
    rw [pyOr_idem]
    rfl
  | channelK c i =>
    obtain ⟨vi, rfl⟩ := construct_channelK h1
    cases c with
    | DEV =>
      have h2' : kw1 = .channelK .DEV (some (pyOr i OFFICIAL_INDEX_URL)) := by
        have he : metadata_to_init_kwargs
            (clsOf (SdkLoader.channelL dd .DEV (pyOr i OFFICIAL_INDEX_URL) vi))
            (get_metadata (SdkLoader.channelL dd .DEV (pyOr i OFFICIAL_INDEX_URL) vi))
            = .ok (.channelK .DEV (some (pyOr i OFFICIAL_INDEX_URL))) := rfl
        rw [he] at h2
        exact (Except.ok.inj h2).symm
      subst h2'
      obtain ⟨vi', rfl⟩ := construct_channelK h3
      rw [pyOr_idem]
      rfl
    | RC =>
      have h2' : kw1 = .channelK .RC (some (pyOr i OFFICIAL_INDEX_URL)) := by
        have he : metadata_to_init_kwargs
            (clsOf (SdkLoader.channelL dd .RC (pyOr i OFFICIAL_INDEX_URL) vi))
            (get_metadata (SdkLoader.channelL dd .RC (pyOr i OFFICIAL_INDEX_URL) vi))
            = .ok (.channelK .RC (some (pyOr i OFFICIAL_INDEX_URL))) := rfl
        rw [he] at h2
        exact (Except.ok.inj h2).symm
      subst h2'
      obtain ⟨vi', rfl⟩ := construct_channelK h3
      rw [pyOr_idem]
      rfl
    | RELEASE =>
      have h2' : kw1 = .channelK .RELEASE (some (pyOr i OFFICIAL_INDEX_URL)) := by
        have he : metadata_to_init_kwargs
            (clsOf (SdkLoader.channelL dd .RELEASE (pyOr i OFFICIAL_INDEX_URL) vi))
            (get_metadata (SdkLoader.channelL dd .RELEASE (pyOr i OFFICIAL_INDEX_URL) vi))
            = .ok (.channelK .RELEASE (some (pyOr i OFFICIAL_INDEX_URL))) := rfl
        rw [he] at h2
        exact (Except.ok.inj h2).symm
      subst h2'
      obtain ⟨vi', rfl⟩ := construct_channelK h3
      rw [pyOr_idem]
      rfl
  | urlK u =>
    obtain rfl : L = .urlL dd u := by
      have h1' : (Except.ok (SdkLoader.urlL dd u) : Except PyErr SdkLoader) = .ok L := h1
      simpa using h1'.symm
    have h2' : kw1 = .urlK u := by
      have he : metadata_to_init_kwargs (clsOf (SdkLoader.urlL dd u))
          (get_metadata (SdkLoader.urlL dd u)) = .ok (.urlK u) := rfl
      rw [he] at h2
      have h2'' := Except.ok.inj h2
      exact h2''.symm
    subst h2'
    obtain rfl : L' = .urlL dd' u := by
      have h3' : (Except.ok (SdkLoader.urlL dd' u) : Except PyErr SdkLoader) = .ok L' := h3
      simpa using h3'.symm
    rfl
  | localK p =>
    obtain rfl : L = .localL dd p := by
      have h1' : (Except.ok (SdkLoader.localL dd p) : Except PyErr SdkLoader) = .ok L := h1
      simpa using h1'.symm
    have h2' : kw1 = .localK p := by
      have he : metadata_to_init_kwargs (clsOf (SdkLoader.localL dd p))
          (get_metadata (SdkLoader.localL dd p)) = .ok (.localK p) := rfl
      rw [he] at h2
      have h2'' := Except.ok.inj h2
      exact h2''.symm
    subst h2'
    obtain rfl : L' = .localL dd' p := by
      have h3' : (Except.ok (SdkLoader.localL dd' p) : Except PyErr SdkLoader) = .ok L' := h3
      simpa using h3'.symm
    rfl

/-- Witness for C6: the round-trip applied to a concrete local loader. -/
theorem metadata_kwargs_roundtrip_witness :
    metadata_to_init_kwargs (clsOf (SdkLoader.localL "/dl2" (some "/sdk.zip")))
      (get_metadata (SdkLoader.localL "/dl2" (some "/sdk.zip")))
      = .ok (.localK (some "/sdk.zip")) :=
  metadata_kwargs_roundtrip Wtriv Wtriv "/dl" "/dl2"
    (.localK (some "/sdk.zip")) (.localK (some "/sdk.zip"))
    (SdkLoader.localL "/dl" (some "/sdk.zip"))
    (SdkLoader.localL "/dl2" (some "/sdk.zip")) rfl rfl rfl
